import Mathlib

/-!
# StoryNet — verification of the specification against the source

Shallow embedding of the StoryNet repository (backend API controllers, the
background worker's graph upsert, the NER extraction service and the PDF
text-extraction routine), with theorems settling the frozen claims about it.

Machine integers are modelled as `Int`/`Nat` (no overflow is relevant at the
sizes involved), Python floats carrying confidence scores as `ℚ` (only
comparisons and `max` are ever performed on them, which `ℚ` models exactly),
Python `None` as `Option`, and fallible handlers return explicit
result types.
-/

namespace StoryNet

/-- Python `str.strip()`: drop leading and trailing whitespace. Implemented
structurally over the character list so that concrete instances evaluate
inside proofs. -/
def pyStrip (s : String) : String :=
  String.mk (((s.data.dropWhile Char.isWhitespace).reverse.dropWhile
    Char.isWhitespace).reverse)

/-- Python `str.lower()`, structurally over the character list. -/
def pyLower (s : String) : String :=
  String.mk (s.data.map Char.toLower)

/-! ## Pagination helper

Every list endpoint repeats the same three lines
(`documents_controller.py:172-174` and `325-327`,
`entities_controller.py:78-80`, `198-200` and `282-284`,
`jobs_controller.py:42-44`, `projects_controller.py:54-56`):

    page = max(1, page or 1)
    page_size = min(100, max(1, page_size or 20))
    skip = (page - 1) * page_size

`page or 1` is Python truthiness: both `None` and `0` fall back to the
default, and likewise for `page_size or 20`. -/

structure Paging where
  page : Int
  page_size : Int
  skip : Int
deriving DecidableEq, Repr

/-- The pagination computation shared verbatim by all list endpoints. -/
def paginate (pageArg : Option Int) (pageSizeArg : Option Int) : Paging :=
  let pageOr : Int := match pageArg with
    | none => 1
    | some p => if p = 0 then 1 else p
  let page := max 1 pageOr
  let sizeOr : Int := match pageSizeArg with
    | none => 20
    | some s => if s = 0 then 20 else s
  let page_size := min 100 (max 1 sizeOr)
  { page := page, page_size := page_size, skip := (page - 1) * page_size }

/-- The claim's reading, following the spec's words: `page` defaults to 1 and
is floored at 1; `page_size` defaults to 20 and is clamped to `[1,100]`;
`skip = (page-1) * page_size`. Written from the spec sentence, for comparison
with `paginate`, which is written from the source. -/
def paginateSpecClaim (pageArg : Option Int) (pageSizeArg : Option Int) : Paging :=
  let page := max 1 (pageArg.getD 1)
  let page_size := min 100 (max 1 (pageSizeArg.getD 20))
  { page := page, page_size := page_size, skip := (page - 1) * page_size }

/-- The amended description of the source computation: `page_size` falls back
to the default 20 not only when omitted but also when supplied as 0 (Python
truthiness); a nonzero supplied `page_size` is clamped to `[1,100]`; `page`
behaves as the claim says. -/
def paginateAmended (pageArg : Option Int) (pageSizeArg : Option Int) : Paging :=
  let page := max 1 (pageArg.getD 1)
  let page_size :=
    match pageSizeArg with
    | none => 20
    | some s => if s = 0 then 20 else min 100 (max 1 s)
  { page := page, page_size := page_size, skip := (page - 1) * page_size }

/-! ## JWT and authentication

`auth_controller.py`, `security_controller.py`, and the configuration wiring
in `__init__.py` (`create_app`). The JWT library is an external collaborator:
a signed token is modelled as its claim set together with the key it was
signed with, and decoding succeeds exactly when the verifying key matches and
the token is unexpired (PyJWT raises `InvalidTokenError` on a signature
mismatch and `ExpiredSignatureError` when `exp < now`). -/

/-- JWT claim set `{sub, email, iat, exp, type}` (`iat` is irrelevant to every
claim and omitted). -/
structure TokenClaims where
  sub : String
  email : String
  exp : Int
  typ : String
deriving DecidableEq, Repr

/-- A signed token: the claims plus the signing key baked into the signature. -/
structure SignedToken where
  claims : TokenClaims
  signedWith : String
deriving DecidableEq, Repr

inductive JwtError
  | expired
  | invalid
deriving DecidableEq, Repr

/-- `jwt.decode(token, key, algorithms=["HS256"])`: signature check, then
expiry check. -/
def jwtDecode (tok : SignedToken) (key : String) (now : Int) : Except JwtError TokenClaims :=
  if tok.signedWith ≠ key then .error .invalid
  else if tok.claims.exp < now then .error .expired
  else .ok tok.claims

/-- `jwt.decode` when the key expression may be Python `None`
(PyJWT rejects a `None` key, surfacing as a caught exception). -/
def jwtDecodeOpt (tok : SignedToken) (key : Option String) (now : Int) :
    Except JwtError TokenClaims :=
  match key with
  | none => .error .invalid
  | some k => jwtDecode tok k now

/-- The process environment variables relevant to authentication. -/
structure Env where
  jwtSecretEnv : Option String
deriving Repr

/-- `create_app` (`__init__.py:49-55`) populates the Flask config with
`JWT_SECRET_KEY = os.environ.get("JWT_SECRET")` — note the key name, and that
the value is `None` when the variable is unset. No `JWT_SECRET` config key is
ever written by `create_app`. -/
def configJwtSecretKey (env : Env) : Option String :=
  env.jwtSecretEnv

/-- `_jwt_secret()` (`auth_controller.py:23-25`):
`current_app.config.get("JWT_SECRET", os.environ.get("JWT_SECRET", "changeme"))`.
Under `create_app` the config has no `JWT_SECRET` key, so the result is the
environment variable when set, else `"changeme"`. -/
def jwtSigningSecret (env : Env) : String :=
  env.jwtSecretEnv.getD "changeme"

/-- `_make_tokens` (`auth_controller.py:28-50`), access half: expiry one hour. -/
def makeAccessToken (env : Env) (user_id email : String) (now : Int) : SignedToken :=
  { claims := { sub := user_id, email := email, exp := now + 3600, typ := "access" }
    signedWith := jwtSigningSecret env }

/-- `_make_tokens`, refresh half: expiry 30 days. -/
def makeRefreshToken (env : Env) (user_id email : String) (now : Int) : SignedToken :=
  { claims := { sub := user_id, email := email, exp := now + 30 * 24 * 3600, typ := "refresh" }
    signedWith := jwtSigningSecret env }

/-- A stored user record (`users` collection). The bcrypt hash is an external
collaborator modelled as an injective tagging of the password; only
`bcrypt.checkpw` equality is ever observed. -/
structure UserRecord where
  id : String
  email : String
  passwordHash : String
  displayName : String
deriving DecidableEq, Repr

/-- `bcrypt.hashpw(password, gensalt())`, up to the salt (only `checkpw`
equality is observable in the code). -/
def bcryptHash (password : String) : String :=
  "bcrypt$" ++ password

/-- `bcrypt.checkpw`. -/
def bcryptCheck (password hash : String) : Bool :=
  bcryptHash password = hash

/-- `info_from_bearerAuth` (`security_controller.py:7-37`): decode with
`current_app.config.get("JWT_SECRET_KEY", "changeme")` — under `create_app`
that key is always present (possibly `None`), so the `"changeme"` default is
never reached; then require a non-empty `sub` and an existing user. Any
failure yields `none` (fails closed, never raises). -/
def info_from_bearerAuth (env : Env) (users : List UserRecord) (tok : SignedToken)
    (now : Int) : Option (String × String) :=
  match jwtDecodeOpt tok (configJwtSecretKey env) now with
  | .error _ => none
  | .ok payload =>
    if payload.sub = "" then none
    else if users.any (fun u => u.id = payload.sub) then some (payload.sub, payload.email)
    else none

/-- Outcome of an auth endpoint: an HTTP status and, on success, the issued
access/refresh token pair. -/
inductive AuthResult
  | okTokens (status : Nat) (access refreshTok : SignedToken)
  | failure (status : Nat) (code : String)
deriving DecidableEq, Repr

def AuthResult.status : AuthResult → Nat
  | .okTokens s _ _ => s
  | .failure s _ => s

/-- `auth_register_post` (`auth_controller.py:206-241`): lower-case and trim
the email, reject a taken email with 409, otherwise hash the password —
with no length validation of any kind — store the user and return a token
pair with 201. Returns the response together with the updated users
collection. -/
def auth_register_post (env : Env) (users : List UserRecord)
    (email password display_name : String) (now : Int) (newId : String) :
    AuthResult × List UserRecord :=
  let email' := pyStrip (pyLower email)
  if users.any (fun u => u.email = email') then
    (.failure 409 "EMAIL_TAKEN", users)
  else
    let user : UserRecord :=
      { id := newId, email := email', passwordHash := bcryptHash password
        displayName := display_name }
    ((.okTokens 201 (makeAccessToken env newId email' now)
        (makeRefreshToken env newId email' now)), users ++ [user])

/-- `auth_me_password_put` (`auth_controller.py:127-168`): after
authentication, a new password shorter than 8 characters is rejected with 422
before any user lookup; otherwise the current password must verify and the
hash is replaced. Result status paired with the updated users collection. -/
def auth_me_password_put (users : List UserRecord) (uid : Option String)
    (current_password new_password : String) : Nat × List UserRecord :=
  match uid with
  | none => (401, users)
  | some u =>
    if new_password.length < 8 then (422, users)
    else
      match users.find? (fun r => r.id = u) with
      | none => (404, users)
      | some r =>
        if bcryptCheck current_password r.passwordHash then
          (204, users.map fun s =>
            if s.id = u then { s with passwordHash := bcryptHash new_password } else s)
        else (401, users)

/-- `auth_refresh_post` (`auth_controller.py:171-203`): decode the supplied
token with `_jwt_secret()`, require `type == "refresh"`, and issue a fresh
pair. The `users` collection is threaded through to witness that the handler
never reads it — the code contains no user-store access on this path. -/
def auth_refresh_post (env : Env) (users : List UserRecord)
    (refresh_token : Option SignedToken) (now : Int) : AuthResult :=
  match refresh_token with
  | none => .failure 401 "MISSING_TOKEN"
  | some tok =>
    match jwtDecode tok (jwtSigningSecret env) now with
    | .error .expired => .failure 401 "TOKEN_EXPIRED"
    | .error .invalid => .failure 401 "INVALID_TOKEN"
    | .ok payload =>
      if payload.typ ≠ "refresh" then .failure 401 "INVALID_TOKEN"
      else
        .okTokens 200 (makeAccessToken env payload.sub payload.email now)
          (makeRefreshToken env payload.sub payload.email now)

/-! ## Graph store and the worker's entity upsert

`worker.py` and the graph half of `documents_controller.py`. A Neo4j `Entity`
node is a flat record of the properties the code writes
(`proxy_to_neo4j_params`); `provenance_json` is modelled in decoded form as a
list of `{document_id, page_number}` pairs, since the code always JSON-decodes
it before use. The graph is the list of its nodes (`MERGE` on `id` keeps ids
unique). -/

/-- A provenance entry `{document_id, page_number}`. -/
structure ProvEntry where
  document_id : String
  page_number : Option Int
deriving DecidableEq, Repr

/-- A stored `Entity` node, fields as written by `_upsert_entity`'s Cypher. -/
structure EntityNode where
  id : String
  schemaName : String
  caption : String
  properties_json : String
  provenance : List ProvEntry
  confidence : ℚ
  public : Bool
  owner_ids : List String
  entity_refs : List String
  name_search : List String
  first_seen : Int
  last_changed : Int
deriving DecidableEq, Repr

/-- The graph store: the `Entity` nodes (the `RELATED` edges written at
`worker.py:119-128` play no part in any claim and are omitted). -/
abbrev Graph := List EntityNode

def Graph.findNode (g : Graph) (id : String) : Option EntityNode :=
  List.find? (fun n => n.id = id) g

/-- The validated entity arriving at `_upsert_entity`: the fields of the
NER-service output after FtM reconstruction, as serialised by
`proxy_to_neo4j_params` (id, schema, caption, property JSON, reference list,
name-search list), together with the submitted provenance and confidence. -/
structure IncomingEntity where
  id : String
  schemaName : String
  caption : String
  properties_json : String
  provenance : List ProvEntry
  confidence : ℚ
  entity_refs : List String
  name_search : List String
deriving DecidableEq, Repr

/-- A value in a Neo4j result row. -/
inductive RowVal
  | provList (l : List ProvEntry)
  | strList (l : List String)
  | boolVal (b : Bool)
deriving DecidableEq, Repr

/-- The row returned by the existing-node query at `worker.py:57-60`:
`RETURN e.provenance_json AS pj, e.owner_ids AS oids` — exactly these two
keys and no others. -/
def existingRow (e : EntityNode) : List (String × RowVal) :=
  [("pj", .provList e.provenance), ("oids", .strList e.owner_ids)]

/-- `record.get(key, default)` on a Neo4j record, for a boolean default:
returns the default when the key is absent from the row. -/
def rowGetBool (row : List (String × RowVal)) (key : String) (dflt : Bool) : Bool :=
  match row.lookup key with
  | some (.boolVal b) => b
  | _ => dflt

/-- The provenance merge at `worker.py:69-76`: seed a seen-set with the
existing `(document_id, page_number)` pairs, then append each new entry whose
pair has not been seen, updating the seen-set as it goes. Appending into the
accumulated list makes the seen-set exactly the pairs of the accumulated
list, so the loop is a fold that appends an entry iff its pair is absent from
the accumulator. -/
def mergeProvenance (existing new : List ProvEntry) : List ProvEntry :=
  new.foldl
    (fun acc p =>
      if acc.any (fun q => q.document_id = p.document_id ∧ q.page_number = p.page_number)
      then acc else acc ++ [p])
    existing

/-- `merged_owners = list(set(existing_owners + owner_ids))` (`worker.py:79`);
the set's iteration order is unspecified, modelled by duplicate erasure —
theorems only ever use membership. -/
def mergeOwners (existing new : List String) : List String :=
  (existing ++ new).eraseDups

/-- `_upsert_entity` (`worker.py:19-115`). On a match the Cypher `ON MATCH SET`
overwrites caption, property JSON, entity refs and name search with the new
values, keeps the maximum confidence
(`CASE WHEN $confidence > e.confidence THEN $confidence ELSE e.confidence END`),
and writes the Python-merged provenance, owner list and public flag.
`merged_public` (`worker.py:80`) is
`existing.get("public", False) or public` — but the query that produced
`existing` returns only `pj` and `oids`, so the lookup of `"public"` misses
and yields the default `False`. -/
def _upsert_entity (g : Graph) (entity : IncomingEntity) (owner_ids : List String)
    (public : Bool) (now : Int) : Graph :=
  match Graph.findNode g entity.id with
  | some e =>
    let row := existingRow e
    let merged_provenance := mergeProvenance e.provenance entity.provenance
    let merged_owners := mergeOwners e.owner_ids owner_ids
    let merged_public := rowGetBool row "public" false || public
    List.map
      (fun n =>
        if n.id = entity.id then
          { n with
            last_changed := now
            caption := entity.caption
            properties_json := entity.properties_json
            provenance := merged_provenance
            confidence := if entity.confidence > n.confidence then entity.confidence else n.confidence
            public := merged_public
            owner_ids := merged_owners
            entity_refs := entity.entity_refs
            name_search := entity.name_search }
        else n)
      g
  | none =>
    g ++ [{ id := entity.id, schemaName := entity.schemaName, caption := entity.caption
            properties_json := entity.properties_json, provenance := entity.provenance
            confidence := entity.confidence, public := public, owner_ids := owner_ids
            entity_refs := entity.entity_refs, name_search := entity.name_search
            first_seen := now, last_changed := now }]

/-- A `documents` collection record (the fields the claims touch). -/
structure DocumentRecord where
  id : String
  public : Bool
  owner_ids : List String
deriving DecidableEq, Repr

/-- A `jobs` collection record (the fields the claims touch). -/
structure JobRecord where
  id : String
  user_id : String
  document_id : String
deriving DecidableEq, Repr

/-- The entity-writing step of `_process_job` (`worker.py:175-176, 213-215`):
each entity returned by the NER service is upserted under the parent
document's current owner set and public flag. -/
def worker_write_entities (g : Graph) (doc : DocumentRecord)
    (entities : List IncomingEntity) (now : Int) : Graph :=
  entities.foldl (fun acc e => _upsert_entity acc e doc.owner_ids doc.public now) g

/-- The spec's §3 invariant, stated over the current document store and graph:
every entity's owner list is (as a set) the union of the owner sets of the
stored documents its provenance references, and its public flag is true iff
some stored document in its provenance is public. -/
def entityInvariant (docs : List DocumentRecord) (g : Graph) : Prop :=
  ∀ n ∈ g,
    (∀ u : String, u ∈ n.owner_ids ↔
      ∃ d ∈ docs, (∃ p ∈ n.provenance, p.document_id = d.id) ∧ u ∈ d.owner_ids) ∧
    (n.public = true ↔
      ∃ d ∈ docs, (∃ p ∈ n.provenance, p.document_id = d.id) ∧ d.public = true)

/-! ## Document ownership removal

`documents_id_delete` (`documents_controller.py:88-150`). The Mongo writes
run first: remove the caller from `owner_ids`, and when no owner remains
delete the document, its `document_texts` and `document_pdfs` satellites, and
all its jobs. The handler then issues graph statements — but in the source
every one of them has its `WHERE` line written as a *nested string literal*
inside the triple-quoted query text, e.g. (lines 131-138)

    MATCH (e:Entity)
    "WHERE e.provenance_json CONTAINS $doc_id "
    DETACH DELETE e

which is not valid Cypher: a clause cannot begin with a string literal, so
`session.run` raises a syntax error (the strip statement at lines 140-148
additionally references `$user_id` without passing that parameter). The
handler has no try/except, so the exception propagates and the framework
answers 500 — after the Mongo writes, with the graph untouched. A graph
statement is therefore embedded as its query text paired with its intended
effect on the graph, and running it first checks the text parses. -/

/-- The filter `e.provenance_json CONTAINS $doc_id` that the statements
intend (substring test on the JSON text, which holds whenever a provenance
entry carries this document id). -/
def provReferences (n : EntityNode) (docId : String) : Bool :=
  n.provenance.any (fun p => p.document_id = docId)

/-- The backend state a delete touches. -/
structure BackendState where
  documents : List DocumentRecord
  document_texts : List String
  document_pdfs : List String
  jobs : List JobRecord
  graph : Graph
deriving DecidableEq, Repr

/-- Split a character list at newline characters; structural, so concrete
query texts evaluate inside proofs. -/
def splitLinesAux : List Char → List (List Char)
  | [] => [[]]
  | c :: rest =>
    match splitLinesAux rest with
    | [] => [[c]]
    | l :: ls => if c = '\n' then [] :: l :: ls else (c :: l) :: ls

/-- Cypher well-formedness, modelled to the depth the claim needs: a Cypher
clause cannot begin with a string literal, so a query one of whose lines
starts (after indentation) with a double quote does not parse and
`session.run` raises a `CypherSyntaxError`. None of the handler's query
texts contains a legitimate string literal, so the double quote can only be
the quoted-out `WHERE` line. -/
def cypherHasQuotedClauseLine (text : String) : Bool :=
  (splitLinesAux text.data).any
    (fun line =>
      match line.dropWhile Char.isWhitespace with
      | c :: _ => c = '"'
      | [] => false)

/-- `session.run` of one graph statement: raise on a malformed query text,
otherwise apply the statement's intended effect to the graph. -/
def runGraphStatement (text : String) (denote : Graph → Graph) (g : Graph) :
    Except String Graph :=
  if cypherHasQuotedClauseLine text then .error "CypherSyntaxError"
  else .ok (denote g)

/-- The query text of the remaining-owners branch
(`documents_controller.py:114-121`), verbatim — the `WHERE` line is a nested
string literal. -/
def ownerStripQueryText : String :=
  "MATCH (e:Entity)\n\"WHERE e.provenance_json CONTAINS $doc_id \"\nSET e.owner_ids = [x IN e.owner_ids WHERE x <> $user_id]"

/-- What the remaining-owners statement would do if its `WHERE` line were a
clause: strip the caller from the owners of every referencing entity. -/
def ownerStripEffect (docId userId : String) (g : Graph) : Graph :=
  List.map
    (fun n =>
      if provReferences n docId then
        { n with owner_ids := n.owner_ids.filter (fun x => x ≠ userId) }
      else n)
    g

/-- The `DETACH DELETE` query text of the last-owner branch
(`documents_controller.py:131-138`), verbatim. -/
def detachDeleteQueryText : String :=
  "MATCH (e:Entity)\n\"WHERE e.provenance_json CONTAINS $doc_id \"\nDETACH DELETE e"

/-- What the `DETACH DELETE` statement would do if its `WHERE` line were a
clause: delete every entity whose provenance references the document (the
text has no restriction to entities whose only provenance is this
document). -/
def detachDeleteEffect (docId : String) (g : Graph) : Graph :=
  List.filter (fun n => ¬ provReferences n docId) g

/-- The strip query text of the last-owner branch
(`documents_controller.py:140-148`), verbatim; beyond the quoted `WHERE`
line, its `$user_id` parameter is never passed. -/
def stripProvenanceQueryText : String :=
  "MATCH (e:Entity)\n\"WHERE e.provenance_json CONTAINS $doc_id \"\nSET e.provenance_json  = [p IN e.provenance_json WHERE p.document_id <> $doc_id],\n    e.owner_ids   = [x IN e.owner_ids WHERE x <> $user_id]"

/-- What the strip statement would do if it ran: remove this document's
provenance entries and the caller from the owners of every referencing
entity. -/
def stripProvenanceEffect (docId userId : String) (g : Graph) : Graph :=
  List.map
    (fun n =>
      if provReferences n docId then
        { n with
          provenance := n.provenance.filter (fun p => p.document_id ≠ docId)
          owner_ids := n.owner_ids.filter (fun x => x ≠ userId) }
      else n)
    g

/-- `documents_id_delete` (`documents_controller.py:88-150`): 404 when the
document is missing, 403 when the caller does not own it; otherwise the Mongo
writes run, then the graph statements — whose malformed query texts make
`session.run` raise, surfacing as a 500 with the Mongo mutation kept and the
graph unchanged. -/
def documents_id_delete (st : BackendState) (user_id docId : String) :
    Nat × BackendState :=
  match st.documents.find? (fun d => d.id = docId) with
  | none => (404, st)
  | some doc =>
    if user_id ∉ doc.owner_ids then (403, st)
    else
      let remaining_owners := doc.owner_ids.filter (fun oid => oid ≠ user_id)
      if remaining_owners ≠ [] then
        let st1 := { st with
          documents := st.documents.map (fun d =>
            if d.id = docId then { d with owner_ids := remaining_owners } else d) }
        match runGraphStatement ownerStripQueryText
            (ownerStripEffect docId user_id) st1.graph with
        | .ok g => (204, { st1 with graph := g })
        | .error _ => (500, st1)
      else
        let st1 := { st with
          documents := st.documents.filter (fun d => d.id ≠ docId)
          document_texts := st.document_texts.filter (fun t => t ≠ docId)
          document_pdfs := st.document_pdfs.filter (fun t => t ≠ docId)
          jobs := st.jobs.filter (fun j => j.document_id ≠ docId) }
        match runGraphStatement detachDeleteQueryText
            (detachDeleteEffect docId) st1.graph with
        | .error _ => (500, st1)
        | .ok g2 =>
          match runGraphStatement stripProvenanceQueryText
              (stripProvenanceEffect docId user_id) g2 with
          | .error _ => (500, { st1 with graph := g2 })
          | .ok g3 => (204, { st1 with graph := g3 })

/-! ## NER extraction service

`ner_service/app.py` and `ner_service/ner.py`. The LLM runtime is an external
collaborator: one generation attempt is modelled by its outcome after the
fence-stripping/JSON-parsing/keys check of `_call_llm` — either a parsed
object or the parse-error text. Entity/relationship construction from the
parsed object (`extract_entities` lines 419-475: schema matching, proxy
building, per-name dedup) yields lists of (proxy, confidence) pairs; the
claims about the service's failure path hold for *every* such construction,
so it enters the model as a universally quantified builder function. -/

/-- A followthemoney `EntityProxy` as observed by `app.py`: stable id, schema,
caption and property map. -/
structure Proxy where
  id : String
  schemaName : String
  caption : String
  properties : List (String × List String)
deriving DecidableEq, Repr

/-- The parsed LLM output after `_call_llm`'s structural checks: a JSON object
carrying `entities` and `connections` lists of raw items. Raw items are kept
abstract as strings of their JSON text; only the builder consumes them. -/
structure LlmParsed where
  entities : List String
  connections : List String
deriving DecidableEq, Repr

/-- `_call_llm` (`ner.py:323-380`): up to `MAX_RETRIES = 3` generation
attempts; an attempt either survives fence-stripping, JSON parsing and the
two-keys check (`.ok`) or fails with a parse-error text (`.error`). The
attempts are consumed in order; after three failures the function raises
`RuntimeError` naming the last parse error. -/
def _call_llm (attempts : Nat → Except String LlmParsed) : Except String LlmParsed :=
  match attempts 1 with
  | .ok p => .ok p
  | .error _ =>
    match attempts 2 with
    | .ok p => .ok p
    | .error _ =>
      match attempts 3 with
      | .ok p => .ok p
      | .error e =>
        .error ("LLM failed to return valid JSON after 3 attempts. Last error: " ++ e)

/-- `extract_entities` (`ner.py:387-475`) as seen from `app.py`: call the LLM
(raising after three failed attempts), then build the per-page
(entity, confidence) and (relationship, confidence) lists from the parsed
output. `build` stands for the construction section (lines 419-475), over
which the failure-path claims are proved for every possible behaviour. -/
def extract_entities (attempts : Nat → Except String LlmParsed)
    (build : LlmParsed → List (Proxy × ℚ) × List (Proxy × ℚ)) :
    Except String (List (Proxy × ℚ) × List (Proxy × ℚ)) :=
  match _call_llm attempts with
  | .error e => .error e
  | .ok parsed => .ok (build parsed)

/-- A request page `{page_number, text}`. -/
structure NerPage where
  page_number : Option Int
  text : String
deriving DecidableEq, Repr

/-- A merged accumulator entry in `app.py`'s per-request maps. -/
structure MergedItem where
  proxy : Proxy
  confidence : ℚ
  provenance : List ProvEntry
deriving DecidableEq, Repr

/-- One insertion into a merge map (`app.py:119-133` and the identical
relationship branch): new id is appended; a repeat id keeps the
higher-confidence proxy and always accumulates the provenance entry unless
already present. Python dicts preserve insertion order, modelled by an
ordered association list. -/
def mergeResult (acc : List (String × MergedItem)) (pe : ProvEntry)
    (item : Proxy × ℚ) : List (String × MergedItem) :=
  match acc.lookup item.1.id with
  | none =>
    acc ++ [(item.1.id, { proxy := item.1, confidence := item.2, provenance := [pe] })]
  | some _ =>
    acc.map fun kv =>
      if kv.1 = item.1.id then
        let ex := kv.2
        let ex := if item.2 > ex.confidence
          then { ex with confidence := item.2, proxy := item.1 } else ex
        let ex := if pe ∈ ex.provenance then ex
          else { ex with provenance := ex.provenance ++ [pe] }
        (kv.1, ex)
      else kv

/-- The serialised FtMEntity shape built by `_build_ftm_entity_dict`
(`app.py:16-43`); `first_seen`/`last_changed` timestamps are not relevant to
any claim and omitted. -/
structure FtmEntityOut where
  id : String
  schemaName : String
  caption : String
  properties : List (String × List String)
  confidence : ℚ
  public : Bool
  owner_ids : List String
  provenance : List ProvEntry
deriving DecidableEq, Repr

def buildFtmEntityDict (item : MergedItem) : FtmEntityOut :=
  { id := item.proxy.id, schemaName := item.proxy.schemaName
    caption := item.proxy.caption, properties := item.proxy.properties
    confidence := item.confidence, public := false, owner_ids := []
    provenance := item.provenance }

/-- The `/ner` endpoint's response. -/
inductive NerResponse
  | ok (document_id : String) (entities : List FtmEntityOut)
  | errorBody (status : Nat) (code : String) (message : String)
deriving DecidableEq, Repr

/-- The entities carried by a response: the error body has none. -/
def NerResponse.entitiesOf : NerResponse → List FtmEntityOut
  | .ok _ es => es
  | .errorBody _ _ _ => []

/-- The page loop of `ner_endpoint` (`app.py:92-150`): blank pages are
skipped; a `RuntimeError` from extraction aborts the whole request; otherwise
the page's entity and relationship results are merged into the two running
maps. -/
def nerLoop (extractPage : NerPage → Except String (List (Proxy × ℚ) × List (Proxy × ℚ)))
    (document_id : String) :
    List NerPage → List (String × MergedItem) → List (String × MergedItem) →
    Except String (List (String × MergedItem) × List (String × MergedItem))
  | [], ents, rels => .ok (ents, rels)
  | page :: rest, ents, rels =>
    if pyStrip page.text = "" then nerLoop extractPage document_id rest ents rels
    else
      let pe : ProvEntry := { document_id := document_id, page_number := page.page_number }
      match extractPage page with
      | .error e => .error e
      | .ok (entityResults, relResults) =>
        nerLoop extractPage document_id rest
          (entityResults.foldl (fun a it => mergeResult a pe it) ents)
          (relResults.foldl (fun a it => mergeResult a pe it) rels)

/-- `ner_endpoint` (`app.py:51-166`): validate `document_id` and `pages`, run
the page loop, and either fail the whole request with 422 `NER_FAILED` or
serialise the merged node entities followed by the merged relationships. -/
def ner_endpoint (extractPage : NerPage → Except String (List (Proxy × ℚ) × List (Proxy × ℚ)))
    (document_id : Option String) (pages : Option (List NerPage)) : NerResponse :=
  match document_id with
  | none => .errorBody 422 "VALIDATION_ERROR" "document_id is required."
  | some docId =>
    if docId = "" then .errorBody 422 "VALIDATION_ERROR" "document_id is required."
    else
      match pages with
      | none => .errorBody 422 "VALIDATION_ERROR" "pages must be a non-empty list."
      | some ps =>
        if ps = [] then .errorBody 422 "VALIDATION_ERROR" "pages must be a non-empty list."
        else
          match nerLoop extractPage docId ps [] [] with
          | .error e => .errorBody 422 "NER_FAILED" e
          | .ok (ents, rels) =>
            .ok docId
              ((ents.map fun kv => buildFtmEntityDict kv.2) ++
                (rels.map fun kv => buildFtmEntityDict kv.2))

/-! ## PDF text extraction

`pdf_service/pdf2text.py`. PyMuPDF and the OCR engine are external
collaborators: a page is modelled by the digital text layer PyMuPDF reads
from it and the list of text lines OCR recognises on its rasterisation. -/

/-- A PDF page as observed by `pdf_to_text`. -/
structure PdfPage where
  digitalText : String
  ocrLines : List String
deriving DecidableEq, Repr

/-- The per-page block appended to `full_document_content`
(`pdf2text.py:23-44`): the stripped digital layer when longer than 50
characters, else the newline-joined OCR lines, else the no-text placeholder.
`pageNum` is the 0-based loop index. -/
def pageBlock (pageNum : Nat) (page : PdfPage) : String :=
  let digital_text := pyStrip page.digitalText
  if digital_text.length > 50 then
    "[Page " ++ toString (pageNum + 1) ++ " - Digital]\n" ++ digital_text
  else if page.ocrLines ≠ [] then
    "[Page " ++ toString (pageNum + 1) ++ " - OCR]\n" ++
      String.intercalate "\n" page.ocrLines
  else
    "[Page " ++ toString (pageNum + 1) ++ "] - No text detected."

/-- The blocks accumulated over the document's pages, in order. -/
def fullDocumentContent (pages : List PdfPage) : List String :=
  (pages.enum.map fun pi => pageBlock pi.1 pi.2)

/-- `pdf_to_text` (`pdf2text.py:19-46`): the function's return value — the
per-page blocks joined into one string by blank lines. -/
def pdf_to_text (pages : List PdfPage) : String :=
  String.intercalate "\n\n" (fullDocumentContent pages)

/-! ## Project update

`projects_id_put` (`projects_controller.py:118-155`). -/

/-- A stored project (`projects` collection). The snapshot is opaque to the
handler; its stored form is modelled as the list of entity representations it
carries. -/
structure ProjectRecord where
  id : String
  name : String
  description : Option String
  owner_id : String
  snapshot : List String
  created_at : Int
  updated_at : Int
deriving DecidableEq, Repr

/-- The parsed `ProjectsIdPutRequest` body: each field absent (`None`) or
supplied. -/
structure ProjectsIdPutRequest where
  name : Option String
  description : Option String
  snapshot : Option (List String)
deriving DecidableEq, Repr

/-- `projects_id_put`: 404 when missing, 403 for a non-owner; otherwise apply
`$set` with `updated_at` always refreshed, `name` only when supplied truthy
(`if req.name:` — the empty string is falsy), `description` when supplied at
all (`is not None`), `snapshot` when supplied (a parsed snapshot model object
is always truthy). -/
def projects_id_put (projects : List ProjectRecord) (user_id projId : String)
    (req : ProjectsIdPutRequest) (now : Int) : Nat × List ProjectRecord :=
  match projects.find? (fun p => p.id = projId) with
  | none => (404, projects)
  | some proj =>
    if proj.owner_id ≠ user_id then (403, projects)
    else
      (200, projects.map fun p =>
        if p.id = projId then
          { p with
            updated_at := now
            name := match req.name with
              | some s => if s = "" then p.name else s
              | none => p.name
            description := match req.description with
              | some d => some d
              | none => p.description
            snapshot := match req.snapshot with
              | some s => s
              | none => p.snapshot }
        else p)

/-! ## Theorems settling the claims -/

/-- C7 (counterexample): the claim's clamp of `page_size` to `[1,100]` fails
at `page_size = 0` — the source's `page_size or 20` treats 0 as absent and
yields the default 20, where clamping would yield 1. -/
theorem paginate_pageSize_zero_counterexample :
    paginate none (some 0) = { page := 1, page_size := 20, skip := 0 } ∧
    paginateSpecClaim none (some 0) = { page := 1, page_size := 1, skip := 0 } ∧
    paginate none (some 0) ≠ paginateSpecClaim none (some 0) := by
  refine ⟨rfl, rfl, ?_⟩
  decide

/-- C7 (amended): on every input, the shared pagination computation of the
list endpoints behaves as the amended claim states — `page` defaults to 1 and
is floored at 1; `page_size` falls back to the default 20 when omitted *or
supplied as 0*, and otherwise is clamped to `[1,100]`; the skip count is
`(page-1) * page_size`. -/
theorem paginate_matches_amended (p s : Option Int) :
    paginate p s = paginateAmended p s := by
  cases p with
  | none =>
    cases s with
    | none => rfl
    | some v =>
      by_cases hv : v = 0
      · subst hv; rfl
      · simp [paginate, paginateAmended, hv]
  | some w =>
    cases s with
    | none =>
      by_cases hw : w = 0
      · subst hw; rfl
      · simp [paginate, paginateAmended, hw]
    | some v =>
      by_cases hv : v = 0 <;> by_cases hw : w = 0 <;>
        simp [paginate, paginateAmended, hv, hw]

/-- C4 (code bug, evaluated at the failing input): with the `JWT_SECRET`
environment variable unset, login/registration sign tokens with the
`"changeme"` fallback of `_jwt_secret()`, but `info_from_bearerAuth` verifies
with the config value `JWT_SECRET_KEY` — which `create_app` set to Python
`None` — so the hook attaches no identity even though the token is freshly
issued, unexpired, and its subject user exists. -/
theorem info_from_bearerAuth_rejects_own_token_when_secret_unset :
    (jwtSigningSecret { jwtSecretEnv := none } = "changeme") ∧
    (configJwtSecretKey { jwtSecretEnv := none } = none) ∧
    ((makeAccessToken { jwtSecretEnv := none } "u1" "u1@example.com" 0).claims.exp = 3600) ∧
    (List.any
      [{ id := "u1", email := "u1@example.com",
         passwordHash := bcryptHash "pw123456", displayName := "U" }]
      (fun u : UserRecord =>
        u.id = (makeAccessToken { jwtSecretEnv := none } "u1" "u1@example.com" 0).claims.sub)
      = true) ∧
    (info_from_bearerAuth { jwtSecretEnv := none }
      [{ id := "u1", email := "u1@example.com",
         passwordHash := bcryptHash "pw123456", displayName := "U" }]
      (makeAccessToken { jwtSecretEnv := none } "u1" "u1@example.com" 0) 10 = none) := by
  exact ⟨rfl, rfl, rfl, by decide, rfl⟩

/-- A three-page PDF matching §8's OCR test vector: a digital page, a page
with no recoverable text, and an OCR page. -/
def pdfExample : List PdfPage :=
  [ { digitalText := "ABCDEFGHIJKLMNOPQRSTUVWXYZ abcdefghijklmnopqrstuvwxyz 0123456789"
      ocrLines := [] }
  , { digitalText := "  ", ocrLines := [] }
  , { digitalText := "short", ocrLines := ["OCR LINE ONE", "OCR LINE TWO"] } ]

/-- C6 (code bug, evaluated at the failing input): `pdf_to_text` does not
return a list of `{page_number, text}` records — it returns one string, the
per-page blocks joined by blank lines with the page number folded into a
bracketed header line. The block list it joins does preserve the page count,
with the no-text placeholder for page 2. -/
theorem pdf_to_text_returns_single_string :
    pdf_to_text pdfExample =
      "[Page 1 - Digital]\nABCDEFGHIJKLMNOPQRSTUVWXYZ abcdefghijklmnopqrstuvwxyz 0123456789" ++
      "\n\n[Page 2] - No text detected." ++
      "\n\n[Page 3 - OCR]\nOCR LINE ONE\nOCR LINE TWO" ∧
    (fullDocumentContent pdfExample).length = pdfExample.length := by
  exact ⟨by decide, rfl⟩

/-- An existing graph node for the upsert evaluations: produced by a public
document `dA` owned by `u1`. -/
def upsertExisting : EntityNode :=
  { id := "e1", schemaName := "Person", caption := "Alice Smith"
    properties_json := "props-old", provenance := [{ document_id := "dA", page_number := some 1 }]
    confidence := Rat.mk' 9 10, public := true, owner_ids := ["u1"]
    entity_refs := [], name_search := ["alice smith"], first_seen := 1, last_changed := 1 }

/-- A second submission of the same entity, now arriving from a private
document `dB`, with lower confidence and updated descriptive content. -/
def upsertIncoming : IncomingEntity :=
  { id := "e1", schemaName := "Person", caption := "Alice P. Smith"
    properties_json := "props-new", provenance := [{ document_id := "dB", page_number := none }]
    confidence := Rat.mk' 3 10, entity_refs := ["e9"], name_search := ["alice p. smith"] }

/-- C3 (code bug, evaluated at the failing input): re-upserting entity `e1`
from a private document merges provenance (deduplicated), unions the owner
sets, keeps the maximal confidence and overwrites caption/property JSON — but
the stored `public` flag becomes `false`, the incoming value, not
`true OR false`: `worker.py:80` reads `existing.get("public", False)` from a
query row that returns only `pj` and `oids`, so the existing flag is never
consulted. -/
theorem upsert_entity_overwrites_public_flag :
    _upsert_entity [upsertExisting] upsertIncoming ["u2"] false 5 =
      [{ id := "e1", schemaName := "Person", caption := "Alice P. Smith"
         properties_json := "props-new"
         provenance := [{ document_id := "dA", page_number := some 1 },
                        { document_id := "dB", page_number := none }]
         confidence := Rat.mk' 9 10, public := false, owner_ids := ["u1", "u2"]
         entity_refs := ["e9"], name_search := ["alice p. smith"]
         first_seen := 1, last_changed := 5 }] := by
  decide

/-- The reachable-state trace for the invariant claim: document `dA` is
public, document `dB` is private, both owned by `u1`. -/
def invDocA : DocumentRecord := { id := "dA", public := true, owner_ids := ["u1"] }

def invDocB : DocumentRecord := { id := "dB", public := false, owner_ids := ["u1"] }

/-- The NER output for the shared entity as extracted from `dA`. -/
def invEntFromA : IncomingEntity :=
  { id := "e1", schemaName := "Person", caption := "Alice"
    properties_json := "props-a", provenance := [{ document_id := "dA", page_number := some 1 }]
    confidence := Rat.mk' 1 2, entity_refs := [], name_search := ["alice"] }

/-- The NER output for the same entity as extracted from `dB`. -/
def invEntFromB : IncomingEntity :=
  { id := "e1", schemaName := "Person", caption := "Alice"
    properties_json := "props-b", provenance := [{ document_id := "dB", page_number := some 1 }]
    confidence := Rat.mk' 1 2, entity_refs := [], name_search := ["alice"] }

/-- Processing the job for `dA` and then the job for `dB` — exactly the
worker's entity-writing step applied twice. -/
def invReachedGraph : Graph :=
  worker_write_entities (worker_write_entities [] invDocA [invEntFromA] 1) invDocB [invEntFromB] 2

/-- The node those two upserts leave in the store. -/
def invNode : EntityNode :=
  { id := "e1", schemaName := "Person", caption := "Alice"
    properties_json := "props-b"
    provenance := [{ document_id := "dA", page_number := some 1 },
                   { document_id := "dB", page_number := some 1 }]
    confidence := Rat.mk' 1 2, public := false, owner_ids := ["u1"]
    entity_refs := [], name_search := ["alice"], first_seen := 1, last_changed := 2 }

/-- C1 (code bug, evaluated at the failing trace): after upserting the same
entity first from public document `dA` and then from private document `dB`,
the stored node's `public` flag is `false` although `dA` is public and is in
its provenance — the reachable state violates the spec's visibility
invariant. (The owner-union half is untouched by this trace; the public-iff
half fails.) -/
theorem entity_invariant_violated_by_worker_upserts :
    invReachedGraph = [invNode] ∧ ¬ entityInvariant [invDocA, invDocB] invReachedGraph := by
  refine ⟨by decide, ?_⟩
  intro h
  have hmem : invNode ∈ invReachedGraph := by decide
  have hpub := (h invNode hmem).2
  have : invNode.public = true := by
    refine hpub.mpr ⟨invDocA, by decide, ⟨{ document_id := "dA", page_number := some 1 }, by decide, by decide⟩, by decide⟩
  exact absurd this (by decide)

/-- The initial backend state for the cascading-delete evaluation: document
`D1` solely owned by `u1`, a second document `D2`, entity `E1` referencing
only `D1`, entity `E2` referencing both. -/
def delState : BackendState :=
  { documents := [{ id := "D1", public := false, owner_ids := ["u1"] },
                  { id := "D2", public := false, owner_ids := ["u2"] }]
    document_texts := ["D1", "D2"]
    document_pdfs := ["D1"]
    jobs := [{ id := "j1", user_id := "u1", document_id := "D1" },
             { id := "j2", user_id := "u2", document_id := "D2" }]
    graph :=
      [{ id := "E1", schemaName := "Person", caption := "Only D1"
         properties_json := "p1", provenance := [{ document_id := "D1", page_number := some 1 }]
         confidence := Rat.mk' 1 2, public := false, owner_ids := ["u1"]
         entity_refs := [], name_search := [], first_seen := 1, last_changed := 1 },
       { id := "E2", schemaName := "Person", caption := "D1 and D2"
         properties_json := "p2"
         provenance := [{ document_id := "D1", page_number := some 1 },
                        { document_id := "D2", page_number := some 1 }]
         confidence := Rat.mk' 1 2, public := false, owner_ids := ["u1", "u2"]
         entity_refs := [], name_search := [], first_seen := 1, last_changed := 1 }] }

/-- C2 (code bug, evaluated at the failing input): when the sole owner `u1`
deletes `D1`, the Mongo records — the document, its text and PDF satellites
and its jobs — are removed, but the `DETACH DELETE` query text has its
`WHERE` clause quoted out as a string literal, so `session.run` raises and
the request ends in a 500 with the graph untouched: `E1`, whose only
provenance is `D1`, is *not* deleted, and `E2` still carries `D1`'s
provenance entry and `u1` among its owners — not the claimed 204 with the
cascade applied. -/
theorem documents_id_delete_raises_leaving_graph_untouched :
    cypherHasQuotedClauseLine detachDeleteQueryText = true ∧
    (documents_id_delete delState "u1" "D1").1 = 500 ∧
    (documents_id_delete delState "u1" "D1").2.documents =
      [{ id := "D2", public := false, owner_ids := ["u2"] }] ∧
    (documents_id_delete delState "u1" "D1").2.document_texts = ["D2"] ∧
    (documents_id_delete delState "u1" "D1").2.document_pdfs = [] ∧
    (documents_id_delete delState "u1" "D1").2.jobs =
      [{ id := "j2", user_id := "u2", document_id := "D2" }] ∧
    (documents_id_delete delState "u1" "D1").2.graph = delState.graph := by
  decide

/-- C8: registration applies no password validation — for any password at
all, including the empty string, a request on a free email returns 201 with a
token pair and stores the user; the 8-character minimum exists only in the
change-password handler, which rejects a short new password with 422. -/
theorem auth_register_post_accepts_any_password
    (env : Env) (users : List UserRecord) (email password display_name : String)
    (now : Int) (newId : String)
    (hfree : ∀ u ∈ users, u.email ≠ pyStrip (pyLower email)) :
    (auth_register_post env users email password display_name now newId).1 =
      .okTokens 201 (makeAccessToken env newId (pyStrip (pyLower email)) now)
        (makeRefreshToken env newId (pyStrip (pyLower email)) now) ∧
    (auth_register_post env users email password display_name now newId).2 =
      users ++ [{ id := newId, email := pyStrip (pyLower email)
                  passwordHash := bcryptHash password, displayName := display_name }] ∧
    (∀ (users2 : List UserRecord) (uid cur newpw : String),
      newpw.length < 8 → (auth_me_password_put users2 (some uid) cur newpw).1 = 422) := by
  have hany : users.any (fun u => u.email = pyStrip (pyLower email)) = false := by
    simp only [List.any_eq_false, decide_eq_true_eq]
    intro u hu
    exact hfree u hu
  refine ⟨?_, ?_, ?_⟩
  · simp [auth_register_post, hany]
  · simp [auth_register_post, hany]
  · intro users2 uid cur newpw hlen
    simp [auth_me_password_put, hlen]

/-- C8 witness: registering with the empty password on an empty user store. -/
theorem auth_register_post_accepts_any_password_witness :
    (∀ u ∈ ([] : List UserRecord), u.email ≠ pyStrip (pyLower "A@Example.ORG")) ∧
    (auth_register_post { jwtSecretEnv := none } [] "A@Example.ORG" "" "Ann" 0 "u1").1 =
      .okTokens 201 (makeAccessToken { jwtSecretEnv := none } "u1" (pyStrip (pyLower "A@Example.ORG")) 0)
        (makeRefreshToken { jwtSecretEnv := none } "u1" (pyStrip (pyLower "A@Example.ORG")) 0) ∧
    ("1234567".length < 8 ∧
      (auth_me_password_put [] (some "u1") "old" "1234567").1 = 422) :=
  ⟨fun u hu => absurd hu (List.not_mem_nil u),
   (auth_register_post_accepts_any_password { jwtSecretEnv := none } [] "A@Example.ORG" ""
      "Ann" 0 "u1" (fun u hu => absurd hu (List.not_mem_nil u))).1,
   by decide,
   (auth_register_post_accepts_any_password { jwtSecretEnv := none } [] "A@Example.ORG" ""
      "Ann" 0 "u1" (fun u hu => absurd hu (List.not_mem_nil u))).2.2 [] "u1" "old" "1234567"
     (by decide)⟩

/-- C9: a validly signed, unexpired token of type `refresh` yields 200 with a
fresh token pair even when its subject is absent from the users collection,
and the handler's result never depends on the users collection at all. -/
theorem auth_refresh_post_ignores_user_store
    (env : Env) (users : List UserRecord) (tok : SignedToken) (now : Int)
    (hsig : tok.signedWith = jwtSigningSecret env)
    (hexp : now ≤ tok.claims.exp)
    (htyp : tok.claims.typ = "refresh")
    (hgone : ∀ u ∈ users, u.id ≠ tok.claims.sub) :
    auth_refresh_post env users (some tok) now =
      .okTokens 200 (makeAccessToken env tok.claims.sub tok.claims.email now)
        (makeRefreshToken env tok.claims.sub tok.claims.email now) ∧
    auth_refresh_post env users (some tok) now = auth_refresh_post env [] (some tok) now := by
  have hdec : jwtDecode tok (jwtSigningSecret env) now = .ok tok.claims := by
    simp [jwtDecode, hsig]
    omega
  constructor
  · simp [auth_refresh_post, hdec, htyp]
  · rfl

/-- C9 witness: a refresh token for a deleted user on a store that still holds
a different user. -/
theorem auth_refresh_post_ignores_user_store_witness :
    (let env : Env := { jwtSecretEnv := some "s3cret" }
     let tok : SignedToken :=
       { claims := { sub := "ghost", email := "g@x.io", exp := 100, typ := "refresh" }
         signedWith := "s3cret" }
     let users : List UserRecord :=
       [{ id := "u1", email := "a@x.io", passwordHash := bcryptHash "pw", displayName := "A" }]
     auth_refresh_post env users (some tok) 0 =
       .okTokens 200 (makeAccessToken env "ghost" "g@x.io" 0)
         (makeRefreshToken env "ghost" "g@x.io" 0)) :=
  (auth_refresh_post_ignores_user_store { jwtSecretEnv := some "s3cret" }
    [{ id := "u1", email := "a@x.io", passwordHash := bcryptHash "pw", displayName := "A" }]
    { claims := { sub := "ghost", email := "g@x.io", exp := 100, typ := "refresh" }
      signedWith := "s3cret" } 0 rfl (by decide) rfl (by decide)).1

/-- C10: when the owner updates a project with `name` omitted or supplied as
the empty string, the handler returns 200 and rewrites the collection so that
only `updated_at` (always), `description` (when supplied) and `snapshot`
(when supplied) change — the stored name, owner, snapshot-when-omitted and
creation timestamp keep their previous values. -/
theorem projects_id_put_empty_name_keeps_previous_values
    (projects : List ProjectRecord) (user_id projId : String)
    (req : ProjectsIdPutRequest) (now : Int) (proj : ProjectRecord)
    (hfind : projects.find? (fun p => p.id = projId) = some proj)
    (howner : proj.owner_id = user_id)
    (hname : req.name = none ∨ req.name = some "") :
    (projects_id_put projects user_id projId req now).1 = 200 ∧
    (projects_id_put projects user_id projId req now).2 =
      projects.map (fun p =>
        if p.id = projId then
          { p with
            updated_at := now
            description := match req.description with
              | some d => some d
              | none => p.description
            snapshot := match req.snapshot with
              | some s => s
              | none => p.snapshot }
        else p) := by
  have howner' : ¬ proj.owner_id ≠ user_id := by simp [howner]
  constructor
  · simp [projects_id_put, hfind, howner']
  · simp only [projects_id_put, hfind]
    rw [if_neg howner']
    refine congrArg (fun f => List.map f projects) ?_
    funext p
    by_cases hp : p.id = projId
    · rcases hname with h | h <;> simp [hp, h]
    · simp [hp]

/-- C10 witness: an owner update supplying the empty name and a new snapshot. -/
theorem projects_id_put_empty_name_keeps_previous_values_witness :
    (let proj : ProjectRecord :=
       { id := "p1", name := "My graph", description := some "d0", owner_id := "u1"
         snapshot := ["e1"], created_at := 3, updated_at := 3 }
     let req : ProjectsIdPutRequest :=
       { name := some "", description := none, snapshot := some ["e2", "e3"] }
     ([proj].find? (fun p => p.id = "p1") = some proj) ∧
     (projects_id_put [proj] "u1" "p1" req 9).1 = 200 ∧
     (projects_id_put [proj] "u1" "p1" req 9).2 =
       [{ id := "p1", name := "My graph", description := some "d0", owner_id := "u1"
          snapshot := ["e2", "e3"], created_at := 3, updated_at := 9 }]) := by
  refine ⟨by decide, ?_⟩
  have h := projects_id_put_empty_name_keeps_previous_values [
    { id := "p1", name := "My graph", description := some "d0", owner_id := "u1"
      snapshot := ["e1"], created_at := 3, updated_at := 3 }] "u1" "p1"
    { name := some "", description := none, snapshot := some ["e2", "e3"] } 9
    { id := "p1", name := "My graph", description := some "d0", owner_id := "u1"
      snapshot := ["e1"], created_at := 3, updated_at := 3 }
    (by decide) rfl (Or.inr rfl)
  exact ⟨h.1, by rw [h.2]; decide⟩

/-- The page-extraction function actually used by `/ner`: `extract_entities`
over the per-page LLM attempt outcomes and the per-page construction of
proxies from parsed output. -/
def extractOf (attempts : NerPage → Nat → Except String LlmParsed)
    (build : NerPage → LlmParsed → List (Proxy × ℚ) × List (Proxy × ℚ)) :
    NerPage → Except String (List (Proxy × ℚ) × List (Proxy × ℚ)) :=
  fun p => extract_entities (attempts p) (build p)

/-- Whether a response is the 422 `NER_FAILED` error body. -/
def NerResponse.isNerFailed : NerResponse → Bool
  | .errorBody s code _ => s == 422 && code == "NER_FAILED"
  | _ => false

/-- If some non-blank page of the request has a failing extraction, the page
loop surfaces an error, whatever was merged before. -/
theorem nerLoop_isError_of_failing_page
    (extractPage : NerPage → Except String (List (Proxy × ℚ) × List (Proxy × ℚ)))
    (docId : String) :
    ∀ (ps : List NerPage) (ents rels : List (String × MergedItem)) (pFail : NerPage),
      pFail ∈ ps → pyStrip pFail.text ≠ "" →
      (∀ r, extractPage pFail ≠ .ok r) →
      ∃ m, nerLoop extractPage docId ps ents rels = .error m := by
  intro ps
  induction ps with
  | nil =>
    intro _ _ pFail h _ _
    exact absurd h (List.not_mem_nil pFail)
  | cons p rest ih =>
    intro ents rels pFail hmem hblank hfail
    by_cases hb : pyStrip p.text = ""
    · have hne : pFail ≠ p := fun he => hblank (he ▸ hb)
      have hmem' : pFail ∈ rest := by
        rcases List.mem_cons.mp hmem with h | h
        · exact absurd h hne
        · exact h
      simp only [nerLoop, if_pos hb]
      exact ih ents rels pFail hmem' hblank hfail
    · cases hx : extractPage p with
      | error e =>
        refine ⟨e, ?_⟩
        simp only [nerLoop, if_neg hb, hx]
      | ok r =>
        obtain ⟨es, rs⟩ := r
        have hne : pFail ≠ p := fun he => hfail (es, rs) (he ▸ hx)
        have hmem' : pFail ∈ rest := by
          rcases List.mem_cons.mp hmem with h | h
          · exact absurd h hne
          · exact h
        simp only [nerLoop, if_neg hb, hx]
        exact ih _ _ pFail hmem' hblank hfail

/-- C5: when the LLM produces no parseable output on all three attempts for
some non-blank page of a valid request, the `/ner` endpoint answers with the
422 `NER_FAILED` error body, which carries no entities — whatever entities
and relationships the preceding pages contributed is discarded. Holds for
every construction `build` of proxies from parsed output. -/
theorem ner_endpoint_hard_failure_returns_no_entities
    (attempts : NerPage → Nat → Except String LlmParsed)
    (build : NerPage → LlmParsed → List (Proxy × ℚ) × List (Proxy × ℚ))
    (docId : String) (pages : List NerPage) (pFail : NerPage)
    (hdoc : docId ≠ "") (hne : pages ≠ [])
    (hmem : pFail ∈ pages) (hblank : pyStrip pFail.text ≠ "")
    (e1 e2 e3 : String)
    (h1 : attempts pFail 1 = .error e1)
    (h2 : attempts pFail 2 = .error e2)
    (h3 : attempts pFail 3 = .error e3) :
    (ner_endpoint (extractOf attempts build) (some docId) (some pages)).isNerFailed = true ∧
    (ner_endpoint (extractOf attempts build) (some docId) (some pages)).entitiesOf = [] := by
  have hfail : ∀ r, extractOf attempts build pFail ≠ .ok r := by
    intro r hr
    simp [extractOf, extract_entities, _call_llm, h1, h2, h3] at hr
  obtain ⟨m, hm⟩ :=
    nerLoop_isError_of_failing_page (extractOf attempts build) docId pages [] [] pFail
      hmem hblank hfail
  constructor
  · simp [ner_endpoint, hdoc, hne, hm, NerResponse.isNerFailed]
  · simp [ner_endpoint, hdoc, hne, hm, NerResponse.entitiesOf]

/-- C5 witness: a two-page request whose second page never parses; every
attempt fails, the response is 422 `NER_FAILED` with no entities. -/
theorem ner_endpoint_hard_failure_returns_no_entities_witness :
    (let attempts : NerPage → Nat → Except String LlmParsed :=
       fun _ _ => .error "unparsable output"
     let build : NerPage → LlmParsed → List (Proxy × ℚ) × List (Proxy × ℚ) :=
       fun _ _ => ([], [])
     let pages : List NerPage :=
       [{ page_number := some 1, text := "Alice owns Acme." },
        { page_number := some 2, text := "gibberish page" }]
     (ner_endpoint (extractOf attempts build) (some "doc-1") (some pages)).isNerFailed = true ∧
     (ner_endpoint (extractOf attempts build) (some "doc-1") (some pages)).entitiesOf = []) :=
  ner_endpoint_hard_failure_returns_no_entities
    (fun _ _ => .error "unparsable output") (fun _ _ => ([], [])) "doc-1"
    [{ page_number := some 1, text := "Alice owns Acme." },
     { page_number := some 2, text := "gibberish page" }]
    { page_number := some 2, text := "gibberish page" }
    (by decide) (by decide) (by decide) (by decide)
    "unparsable output" "unparsable output" "unparsable output" rfl rfl rfl

end StoryNet
